import Mathlib

/-!
Verification development for the todo-summary-assistant application.
The client component (`TodoApp` in the sources) is embedded directly;
the server-side repository/orchestration routes are not in the sources,
so those parts are modelled from the specification where noted.
-/

namespace FullStack

/-- Task record, from `types/todo.ts` (`Todo`). Timestamps are modelled
as naturals so that their ordering can be stated. -/
structure Todo where
  id : Nat
  title : String
  description : Option String
  completed : Bool
  created_at : Nat
  updated_at : Nat
deriving Repr, DecidableEq

/-- `pat` occurs as a contiguous substring of `s` (JavaScript
`String.prototype.includes`). -/
def strContains (s pat : String) : Bool :=
  decide (pat.toList <:+: s.toList)

/-- The client's table-missing test on an error text, from `fetchTodos`
lines 45–48 and 65–68 of the component source. -/
def isTableMissingError (msg : String) : Bool :=
  strContains msg "relation \"public.todos\" does not exist" ||
  (strContains msg "relation" && strContains msg "does not exist")

/-- JSON body of a successful GET /api/todos response as the client
inspects it: `Array.isArray(data)` distinguishes only array vs non-array. -/
inductive FetchBody
  | arr (todos : List Todo)
  | notArray
deriving Repr, DecidableEq

/-- The ways a GET /api/todos round trip can fail, as distinguished by
the client code: a non-ok HTTP response whose parsed body may carry an
`error` string (`statusText` stands for the rendered numeric status), or
a thrown exception (network / JSON parse), which carries a message only
when it is an `Error` instance. -/
inductive FetchError
  | httpError (errorField : Option String) (statusText : String)
  | thrown (isErrorInstance : Bool) (msg : String)
deriving Repr, DecidableEq

/-- Outcome of the GET /api/todos round trip. -/
inductive FetchResponse
  | ok (body : FetchBody)
  | err (e : FetchError)
deriving Repr, DecidableEq

/-- Client component state touched by `fetchTodos`, plus the destructive
toast (if any) emitted during the call. -/
structure ClientState where
  todos : List Todo
  tableExists : Bool
  apiError : Option String
  toast : Option String
  loading : Bool
deriving Repr, DecidableEq

/-- The error text the client ends up inspecting for a failed fetch:
for a non-ok response it is the body's `error` field when that is a
non-empty string, otherwise `"Server responded with <status>"`; for a
thrown exception it is its message when it is an `Error` instance,
otherwise the fixed fallback text (lines 54 and 62 of the source). -/
def errorTextOf : FetchError → String
  | .httpError (some m) statusText =>
      if m = "" then "Server responded with " ++ statusText else m
  | .httpError none statusText => "Server responded with " ++ statusText
  | .thrown true msg => msg
  | .thrown false _ => "Failed to load todos. Please try again."

/-- The `catch` block of `fetchTodos` (lines 60–80): re-test the message
for the table-missing marker; either enter the setup-required state
silently, or record the error and raise a destructive toast; in both
cases fall back to an empty list. -/
def fetchTodosCatch (st : ClientState) (errorMessage : String) : ClientState :=
  if isTableMissingError errorMessage then
    { st with tableExists := false, todos := [], loading := false }
  else
    { st with apiError := some errorMessage, toast := some errorMessage,
              todos := [], loading := false }

/-- One complete run of the client's `fetchTodos` (lines 34–84), as a
function of the previous component state and the round-trip outcome.
A non-ok response whose `error` field matches the table-missing marker
returns early without touching `todos`; any other failure is thrown and
handled by the catch block; a successful response stores the body when
it is an array and an empty list otherwise. -/
def fetchTodos (prev : ClientState) (resp : FetchResponse) : ClientState :=
  let st : ClientState :=
    { prev with loading := true, apiError := none, toast := none }
  match resp with
  | .ok (.arr ts) =>
      { st with todos := ts, tableExists := true, loading := false }
  | .ok .notArray =>
      { st with todos := [], tableExists := true, loading := false }
  | .err e =>
    match e with
    | .httpError (some m) statusText =>
        if isTableMissingError m then
          { st with tableExists := false, loading := false }
        else
          fetchTodosCatch st
            (if m = "" then "Server responded with " ++ statusText else m)
    | .httpError none statusText =>
        fetchTodosCatch st ("Server responded with " ++ statusText)
    | .thrown true msg => fetchTodosCatch st msg
    | .thrown false _ => fetchTodosCatch st "Failed to load todos. Please try again."

/-- Pending tab contents (line 216 of the source). -/
def pendingTodos (todos : List Todo) : List Todo :=
  todos.filter (fun t => !t.completed)

/-- Completed tab contents (line 217 of the source). -/
def completedTodos (todos : List Todo) : List Todo :=
  todos.filter (fun t => t.completed)

/-- The client's `addTodo` after the POST round trip (lines 86–114):
on success the server's created task is prepended to the local list;
on failure the list is untouched and an error toast is raised. -/
def addTodo (st : ClientState) (resp : Option Todo) : ClientState :=
  match resp with
  | some newTodo =>
      { st with todos := newTodo :: st.todos,
                toast := some "Todo added successfully" }
  | none =>
      { st with toast := some "Failed to add todo. Please try again." }

/-- The client's `updateTodo` after the PATCH round trip (lines 116–144):
on success the server's updated task replaces the task with the matching
id in the local list. -/
def updateTodoSuccess (todos : List Todo) (id : Nat) (updated : Todo) : List Todo :=
  todos.map (fun t => if t.id = id then updated else t)

/-- The client's `deleteTodo` after a successful DELETE (lines 146–169). -/
def deleteTodoSuccess (todos : List Todo) (id : Nat) : List Todo :=
  todos.filter (fun t => t.id ≠ id)

/-- An HTTP request as the client builds it; the JSON object body is an
association list of key/value pairs. -/
structure HttpRequest where
  method : String
  path : String
  jsonBody : List (String × String)
deriving Repr, DecidableEq

/-- The request `summarizeAndSendToSlack` issues (lines 186–192 of the
source): `fetch("/api/summarize", { method: "POST", body:
JSON.stringify({ slackWebhookUrl }) })`. -/
def summarizeRequest (slackWebhookUrl : String) : HttpRequest :=
  { method := "POST", path := "/api/summarize",
    jsonBody := [("slackWebhookUrl", slackWebhookUrl)] }

/-- The network behaviour of `summarizeAndSendToSlack` (lines 171–192):
an empty webhook URL is rejected with a toast before any request is
made; otherwise the summarize request is issued. -/
def summarizeClientRequest (slackWebhookUrl : String) : Option HttpRequest :=
  if slackWebhookUrl = "" then none
  else some (summarizeRequest slackWebhookUrl)

/-- The success-path toast of `summarizeAndSendToSlack` reads the count
from the response body's `todoCount` key (lines 194–203 of the source). -/
def summarizeSuccessToastCount (respBody : List (String × Nat)) : Option Nat :=
  respBody.lookup "todoCount"

/-- The Summarize button's disabled condition (line 305 of the source):
`summarizing || pendingTodos.length === 0`. -/
def summarizeButtonDisabled (summarizing : Bool) (todos : List Todo) : Bool :=
  summarizing || (pendingTodos todos).length == 0

/-! ### Server side, modelled from the specification

The API routes implementing the Task Repository and the orchestration
entry point (`/api/todos`, `/api/summarize`) are not among the sources;
the following definitions model them from the specification. -/

/-- Error taxonomy of the orchestration pipeline (spec §7). -/
inductive OrchError
  | InvalidDestination
  | NoPendingItems
  | UpstreamUnavailable
  | EmptyCompletion
  | DeliveryFailed (status : Nat)
deriving Repr, DecidableEq

/-- Modelled from the spec: the Notification Dispatcher's destination
check (§4.3, "must be a well-formed URL; empty/invalid URL fails with
`InvalidDestination` before any network call"); the implementing API
route is not in the sources. Well-formedness is modelled as carrying an
http(s) scheme with a non-empty remainder, which rejects `""` and
`"not-a-url"`. -/
def isWellFormedUrl (url : String) : Bool :=
  (decide ("http://".toList <+: url.toList) && decide (url.toList ≠ "http://".toList)) ||
  (decide ("https://".toList <+: url.toList) && decide (url.toList ≠ "https://".toList))

/-- Result and observable network activity of one orchestration call. -/
structure OrchOutcome where
  result : Except OrchError Nat
  llmCalls : Nat
  webhookCalls : Nat
deriving Repr

/-- Modelled from the spec: the orchestration entry point (§4.4),
"validate destination URL present → list incomplete tasks → if empty,
return `NoPendingItems` → summarize → dispatch → return
`{summarizedCount, status: success}`"; the implementing `/api/summarize`
route is not in the sources. `llm` (resp. `dispatch`) is the outcome the
LLM round trip (resp. webhook POST) would produce if invoked; the
counters record how many such round trips actually happen. An LLM
completion with no usable text fails with `EmptyCompletion` (§4.2). -/
def runOrchestration (webhookUrl : String) (tasks : List Todo)
    (llm : Except OrchError String) (dispatch : Except OrchError Unit) :
    OrchOutcome :=
  if !isWellFormedUrl webhookUrl then
    ⟨.error .InvalidDestination, 0, 0⟩
  else
    let pending := tasks.filter (fun t => !t.completed)
    if pending = [] then
      ⟨.error .NoPendingItems, 0, 0⟩
    else
      match llm with
      | .error e => ⟨.error e, 1, 0⟩
      | .ok summary =>
          if summary = "" then ⟨.error .EmptyCompletion, 1, 0⟩
          else
            match dispatch with
            | .error e => ⟨.error e, 1, 1⟩
            | .ok _ => ⟨.ok pending.length, 1, 1⟩

/-- Modelled from the spec: the success response body of POST
/api/summarize is `{todoCount}` (§6); the implementing route is not in
the sources. -/
def summarizeResponseBody (todoCount : Nat) : List (String × Nat) :=
  [("todoCount", todoCount)]

/-- A partial update as accepted by the repository's `update` (spec
§4.1); each field is present or absent. -/
structure TodoPatch where
  title : Option String := none
  description : Option (Option String) := none
  completed : Option Bool := none
deriving Repr, DecidableEq

/-- Modelled from the spec: the repository's `update(id, partialFields)`
applied to one task record (§4.1, §3: partial updates "must refresh
`updated_at`"); the implementing route is not in the sources. -/
def applyPatch (t : Todo) (p : TodoPatch) (now : Nat) : Todo :=
  { t with
    title := p.title.getD t.title,
    description := p.description.getD t.description,
    completed := p.completed.getD t.completed,
    updated_at := now }

/-- Modelled from the spec: the Task Store's state (§3) — the task
records plus the next identifier to assign, identifiers being "unique
and never reused". -/
structure Store where
  todos : List Todo
  nextId : Nat
deriving Repr, DecidableEq

/-- A mutation of the Task Store (spec §4.1). -/
inductive StoreOp
  | create (title : String) (descr : Option String)
  | update (id : Nat) (p : TodoPatch)
  | delete (id : Nat)
deriving Repr, DecidableEq

/-- Modelled from the spec: one repository operation against the store
at time `now` (§4.1): `create` fails with `ValidationError` (no state
change) on an empty title and otherwise assigns the next fresh id with
both timestamps `now`; `update` patches the matching record, refreshing
`updated_at`; `delete` removes it permanently. -/
def Store.applyOp (s : Store) (now : Nat) : StoreOp → Store
  | .create title descr =>
      if title = "" then s
      else { todos := ⟨s.nextId, title, descr, false, now, now⟩ :: s.todos,
             nextId := s.nextId + 1 }
  | .update id p =>
      { s with todos := s.todos.map (fun t => if t.id = id then applyPatch t p now else t) }
  | .delete id =>
      { s with todos := s.todos.filter (fun t => t.id ≠ id) }

/-- Run a sequence of store operations under a monotone clock: the
`k`-th operation executes at time `clock + k` (each operation runs to
completion before the next starts, spec §5). -/
def Store.run (s : Store) (clock : Nat) : List StoreOp → Store
  | [] => s
  | op :: ops => (s.applyOp clock op).run (clock + 1) ops

/-- The ids handed out by `create` operations along a run (in order). -/
def Store.assignedIds (s : Store) (clock : Nat) : List StoreOp → List Nat
  | [] => []
  | op :: ops =>
      (match op with
       | .create title _ => if title = "" then [] else [s.nextId]
       | _ => []) ++ (s.applyOp clock op).assignedIds (clock + 1) ops

/-- The store holding no tasks, before any id has been assigned. -/
def emptyStore : Store := ⟨[], 0⟩

/-! ## Theorems -/

/-- The client's table-missing test, spelled out as the disjunction of
substring conditions it implements. -/
theorem isTableMissingError_iff (msg : String) :
    isTableMissingError msg = true ↔
      (strContains msg "relation \"public.todos\" does not exist" = true ∨
       (strContains msg "relation" = true ∧ strContains msg "does not exist" = true)) := by
  simp [isTableMissingError, Bool.or_eq_true, Bool.and_eq_true]

/-- C9: the pending and completed tabs partition the client's todo
list: a task is in the pending view iff it is in the list and not
completed, in the completed view iff it is in the list and completed,
never in both, and the two tab counts add up to the list's length. -/
theorem pending_completed_partition (todos : List Todo) (t : Todo) :
    (t ∈ pendingTodos todos ↔ t ∈ todos ∧ t.completed = false) ∧
    (t ∈ completedTodos todos ↔ t ∈ todos ∧ t.completed = true) ∧
    ¬(t ∈ pendingTodos todos ∧ t ∈ completedTodos todos) ∧
    (pendingTodos todos).length + (completedTodos todos).length = todos.length := by
  refine ⟨?_, ?_, ?_, ?_⟩
  · simp [pendingTodos, List.mem_filter]
  · simp [completedTodos, List.mem_filter]
  · simp only [pendingTodos, completedTodos, List.mem_filter]
    rintro ⟨⟨-, h₁⟩, -, h₂⟩
    simp [h₂] at h₁
  · have h := List.length_eq_length_filter_add (l := todos) (fun t => t.completed)
    simpa [pendingTodos, completedTodos, Nat.add_comm] using h.symm

/-- Witness for C9 at a concrete list and task. -/
theorem pending_completed_partition_w :
    let t : Todo := ⟨0, "a", none, false, 0, 0⟩
    (t ∈ pendingTodos [t] ↔ t ∈ [t] ∧ t.completed = false) ∧
    (t ∈ completedTodos [t] ↔ t ∈ [t] ∧ t.completed = true) ∧
    ¬(t ∈ pendingTodos [t] ∧ t ∈ completedTodos [t]) ∧
    (pendingTodos [t]).length + (completedTodos [t]).length = [t].length :=
  pending_completed_partition [⟨0, "a", none, false, 0, 0⟩] ⟨0, "a", none, false, 0, 0⟩

/-- C10: after a successful create, the client places the new task at
the head of its local list and keeps every previously displayed task in
its prior position (shifted by one), without re-fetching. -/
theorem addTodo_prepends (st : ClientState) (n : Todo) :
    (addTodo st (some n)).todos.head? = some n ∧
    (addTodo st (some n)).todos.tail = st.todos ∧
    ∀ i, (addTodo st (some n)).todos.get? (i + 1) = st.todos.get? i := by
  refine ⟨rfl, rfl, fun i => ?_⟩
  simp [addTodo]

/-- Witness for C10 at a concrete state and task. -/
theorem addTodo_prepends_w :
    let t : Todo := ⟨1, "b", none, false, 0, 0⟩
    let st : ClientState := ⟨[⟨0, "a", none, false, 0, 0⟩], true, none, none, false⟩
    (addTodo st (some t)).todos.head? = some t ∧
    (addTodo st (some t)).todos.tail = st.todos ∧
    ∀ i, (addTodo st (some t)).todos.get? (i + 1) = st.todos.get? i :=
  addTodo_prepends ⟨[⟨0, "a", none, false, 0, 0⟩], true, none, none, false⟩
    ⟨1, "b", none, false, 0, 0⟩

/-- C6: a repository update that sets only `completed` changes only
that field and `updated_at`; `id`, `title`, `description` and
`created_at` are untouched, and applying the same update again is
idempotent aside from `updated_at`. -/
theorem update_completed_frame (t : Todo) (b : Bool) (n₁ n₂ : Nat) :
    applyPatch t ⟨none, none, some b⟩ n₁ =
      { t with completed := b, updated_at := n₁ } ∧
    applyPatch (applyPatch t ⟨none, none, some b⟩ n₁) ⟨none, none, some b⟩ n₂ =
      { applyPatch t ⟨none, none, some b⟩ n₁ with updated_at := n₂ } := by
  constructor <;> simp [applyPatch]

/-- Witness for C6 at a concrete task, value and times. -/
theorem update_completed_frame_w :
    let t : Todo := ⟨0, "a", some "d", false, 1, 2⟩
    applyPatch t ⟨none, none, some true⟩ 3 =
      { t with completed := true, updated_at := 3 } ∧
    applyPatch (applyPatch t ⟨none, none, some true⟩ 3) ⟨none, none, some true⟩ 4 =
      { applyPatch t ⟨none, none, some true⟩ 3 with updated_at := 4 } :=
  update_completed_frame ⟨0, "a", some "d", false, 1, 2⟩ true 3 4

/-- C3: a webhook URL that is not well-formed (in particular the empty
string, or `"not-a-url"`) makes the orchestration fail with
`InvalidDestination` before any network round trip: zero LLM calls and
zero webhook calls. -/
theorem invalid_destination_before_network (url : String) (tasks : List Todo)
    (llm : Except OrchError String) (dispatch : Except OrchError Unit)
    (h : isWellFormedUrl url = false) :
    runOrchestration url tasks llm dispatch =
      ⟨.error .InvalidDestination, 0, 0⟩ := by
  simp [runOrchestration, h]

/-- Witness for C3 at the spec's example URL and at the empty URL. -/
theorem invalid_destination_before_network_w :
    (isWellFormedUrl "not-a-url" = false ∧
     runOrchestration "not-a-url" [⟨0, "a", none, false, 0, 0⟩] (.ok "s") (.ok ()) =
       ⟨.error .InvalidDestination, 0, 0⟩) ∧
    (isWellFormedUrl "" = false ∧
     runOrchestration "" [⟨0, "a", none, false, 0, 0⟩] (.ok "s") (.ok ()) =
       ⟨.error .InvalidDestination, 0, 0⟩) :=
  ⟨⟨by decide,
    invalid_destination_before_network "not-a-url" [⟨0, "a", none, false, 0, 0⟩]
      (.ok "s") (.ok ()) (by decide)⟩,
   ⟨by decide,
    invalid_destination_before_network "" [⟨0, "a", none, false, 0, 0⟩]
      (.ok "s") (.ok ()) (by decide)⟩⟩

/-- C4: when there is no incomplete task, the orchestration makes no
LLM and no webhook call, and (the destination URL being well-formed, so
that the preceding validation stage passes) fails with
`NoPendingItems`; moreover the client's Summarize button is disabled. -/
theorem no_pending_no_calls (url : String) (tasks : List Todo)
    (llm : Except OrchError String) (dispatch : Except OrchError Unit) (b : Bool)
    (h : tasks.filter (fun t => !t.completed) = []) :
    (runOrchestration url tasks llm dispatch).llmCalls = 0 ∧
    (runOrchestration url tasks llm dispatch).webhookCalls = 0 ∧
    (isWellFormedUrl url = true →
      (runOrchestration url tasks llm dispatch).result = .error .NoPendingItems) ∧
    summarizeButtonDisabled b tasks = true := by
  by_cases hw : isWellFormedUrl url = true
  · refine ⟨?_, ?_, fun _ => ?_, ?_⟩ <;>
      simp [runOrchestration, hw, h, summarizeButtonDisabled, pendingTodos]
  · rw [Bool.not_eq_true] at hw
    refine ⟨?_, ?_, fun hw' => absurd hw' (by simp [hw]), ?_⟩ <;>
      simp [runOrchestration, hw, summarizeButtonDisabled, pendingTodos, h]

/-- Witness for C4: one completed task, a well-formed URL. -/
theorem no_pending_no_calls_w :
    (runOrchestration "https://hooks.example.com/x" [⟨0, "a", none, true, 0, 0⟩]
        (.ok "s") (.ok ())).llmCalls = 0 ∧
    (runOrchestration "https://hooks.example.com/x" [⟨0, "a", none, true, 0, 0⟩]
        (.ok "s") (.ok ())).webhookCalls = 0 ∧
    (isWellFormedUrl "https://hooks.example.com/x" = true →
      (runOrchestration "https://hooks.example.com/x" [⟨0, "a", none, true, 0, 0⟩]
          (.ok "s") (.ok ())).result = .error .NoPendingItems) ∧
    summarizeButtonDisabled false [⟨0, "a", none, true, 0, 0⟩] = true :=
  no_pending_no_calls "https://hooks.example.com/x" [⟨0, "a", none, true, 0, 0⟩]
    (.ok "s") (.ok ()) false (by decide)

/-- C2 counterexample: the summarize request the client builds carries
the webhook URL under the key `slackWebhookUrl`, not `webhookUrl`, and
its path is `/api/summarize`, not `/summarize`. -/
theorem summarize_request_key_cex :
    (summarizeRequest "https://hooks.example.com/T").jsonBody.lookup "webhookUrl" = none ∧
    (summarizeRequest "https://hooks.example.com/T").path ≠ "/summarize" := by
  constructor
  · rfl
  · decide

/-- C2 (amended): every summarize invocation that reaches the network
(non-empty URL) issues a POST to `/api/summarize` whose JSON body
carries the caller-supplied webhook URL under the key `slackWebhookUrl`,
and the success response body carries the summarized-item count under
the key `todoCount`, which is what the client's success toast reads. -/
theorem summarize_request_amended (url : String) (n : Nat) (h : url ≠ "") :
    summarizeClientRequest url = some (summarizeRequest url) ∧
    (summarizeRequest url).method = "POST" ∧
    (summarizeRequest url).path = "/api/summarize" ∧
    (summarizeRequest url).jsonBody.lookup "slackWebhookUrl" = some url ∧
    (summarizeResponseBody n).lookup "todoCount" = some n ∧
    summarizeSuccessToastCount (summarizeResponseBody n) = some n := by
  refine ⟨?_, rfl, rfl, ?_, ?_, ?_⟩ <;>
    simp [summarizeClientRequest, summarizeRequest, summarizeResponseBody,
      summarizeSuccessToastCount, h, List.lookup]

/-- Witness for the amended C2 at a concrete URL and count. -/
theorem summarize_request_amended_w :
    summarizeClientRequest "https://hooks.example.com/T" =
      some (summarizeRequest "https://hooks.example.com/T") ∧
    (summarizeRequest "https://hooks.example.com/T").method = "POST" ∧
    (summarizeRequest "https://hooks.example.com/T").path = "/api/summarize" ∧
    (summarizeRequest "https://hooks.example.com/T").jsonBody.lookup "slackWebhookUrl" =
      some "https://hooks.example.com/T" ∧
    (summarizeResponseBody 1).lookup "todoCount" = some 1 ∧
    summarizeSuccessToastCount (summarizeResponseBody 1) = some 1 :=
  summarize_request_amended "https://hooks.example.com/T" 1 (by decide)

/-- The catch block always falls back to the empty list. -/
theorem fetchTodosCatch_todos (st : ClientState) (msg : String) :
    (fetchTodosCatch st msg).todos = [] := by
  simp only [fetchTodosCatch]
  split_ifs <;> rfl

/-- Component-wise description of a failed fetch from the normal state
(`tableExists = true`, no pending error): the setup-required flag,
toast and recorded error are all decided by the table-missing test on
the effective error text. -/
theorem fetchTodos_err_components (prev_todos : List Todo) (e : FetchError) :
    (fetchTodos ⟨prev_todos, true, none, none, false⟩ (.err e)).tableExists
        = !isTableMissingError (errorTextOf e) ∧
    (fetchTodos ⟨prev_todos, true, none, none, false⟩ (.err e)).toast
        = (if isTableMissingError (errorTextOf e) = true then none
           else some (errorTextOf e)) ∧
    (fetchTodos ⟨prev_todos, true, none, none, false⟩ (.err e)).apiError
        = (if isTableMissingError (errorTextOf e) = true then none
           else some (errorTextOf e)) := by
  cases e with
  | httpError errorField statusText =>
    cases errorField with
    | some m =>
      by_cases hm0 : m = ""
      · subst hm0
        have h0 : isTableMissingError "" = false := by decide
        simp only [fetchTodos, errorTextOf, fetchTodosCatch, h0, if_pos rfl,
          Bool.false_eq_true, if_false]
        split_ifs <;> simp_all
      · have het : errorTextOf (.httpError (some m) statusText) = m := by
          simp [errorTextOf, hm0]
        simp only [fetchTodos, fetchTodosCatch, het, if_neg hm0]
        split_ifs with hc <;> simp [hc]
    | none =>
      simp only [fetchTodos, errorTextOf, fetchTodosCatch]
      split_ifs with hc <;> simp [hc]
  | thrown isErrorInstance msg =>
    cases isErrorInstance <;>
      · simp only [fetchTodos, errorTextOf, fetchTodosCatch]
        split_ifs with hc <;> simp [hc]

/-- C1: a failed fetch of the task list puts the client in the
setup-required state with no error toast if and only if the error text
contains `'relation "public.todos" does not exist'` or both `"relation"`
and `"does not exist"`; every other error text yields the generic error
state (recorded error) with a destructive toast. -/
theorem fetch_error_setup_state_iff (prev_todos : List Todo) (e : FetchError) :
    (((fetchTodos ⟨prev_todos, true, none, none, false⟩ (.err e)).tableExists = false ∧
      (fetchTodos ⟨prev_todos, true, none, none, false⟩ (.err e)).toast = none) ↔
       (strContains (errorTextOf e) "relation \"public.todos\" does not exist" = true ∨
        (strContains (errorTextOf e) "relation" = true ∧
         strContains (errorTextOf e) "does not exist" = true))) ∧
    (isTableMissingError (errorTextOf e) = false →
      (fetchTodos ⟨prev_todos, true, none, none, false⟩ (.err e)).apiError =
        some (errorTextOf e) ∧
      (fetchTodos ⟨prev_todos, true, none, none, false⟩ (.err e)).toast =
        some (errorTextOf e)) := by
  obtain ⟨h1, h2, h3⟩ := fetchTodos_err_components prev_todos e
  constructor
  · rw [h1, h2, ← isTableMissingError_iff]
    by_cases hc : isTableMissingError (errorTextOf e) = true <;> simp [hc]
  · intro hf
    rw [h3, h2]
    simp [hf]

/-- Witness for C1: a matching error text enters the setup-required
state with no toast, and a non-matching one records a generic error
with a toast. -/
theorem fetch_error_setup_state_iff_w :
    ((fetchTodos ⟨[], true, none, none, false⟩
        (.err (.httpError (some "relation \"public.todos\" does not exist") "500"))).tableExists
      = false ∧
     (fetchTodos ⟨[], true, none, none, false⟩
        (.err (.httpError (some "relation \"public.todos\" does not exist") "500"))).toast
      = none) ∧
    ((fetchTodos ⟨[], true, none, none, false⟩
        (.err (.thrown true "network down"))).apiError = some "network down" ∧
     (fetchTodos ⟨[], true, none, none, false⟩
        (.err (.thrown true "network down"))).toast = some "network down") :=
  ⟨(fetch_error_setup_state_iff []
      (.httpError (some "relation \"public.todos\" does not exist") "500")).1.mpr
        (Or.inl (by decide)),
   (fetch_error_setup_state_iff [] (.thrown true "network down")).2 (by decide)⟩

/-- Whether a round-trip failure reaches the catch block of
`fetchTodos`: every failure throws except a non-ok response whose
`error` field matches the table-missing marker, which returns early. -/
def fetchThrows : FetchError → Bool
  | .httpError (some m) _ => !isTableMissingError m
  | .httpError none _ => true
  | .thrown _ _ => true

/-- C8: every completion of `fetchTodos` leaves `todos` a list: a
successful array response stores it, a successful non-array response
stores the empty list, every thrown error stores the empty list, and
the only remaining path (the early table-missing return) keeps the
previous list. -/
theorem fetchTodos_todos_list (prev : ClientState) (e : FetchError) (ts : List Todo) :
    (fetchTodos prev (.ok (.arr ts))).todos = ts ∧
    (fetchTodos prev (.ok .notArray)).todos = [] ∧
    (fetchThrows e = true → (fetchTodos prev (.err e)).todos = []) ∧
    ((fetchTodos prev (.err e)).todos = [] ∨
     (fetchTodos prev (.err e)).todos = prev.todos) := by
  refine ⟨rfl, rfl, ?_, ?_⟩
  · intro hth
    cases e with
    | httpError errorField statusText =>
      cases errorField with
      | some m =>
        simp only [fetchThrows, Bool.not_eq_true'] at hth
        simp [fetchTodos, hth, fetchTodosCatch_todos]
      | none => simp [fetchTodos, fetchTodosCatch_todos]
    | thrown isErrorInstance msg =>
      cases isErrorInstance <;> simp [fetchTodos, fetchTodosCatch_todos]
  · cases e with
    | httpError errorField statusText =>
      cases errorField with
      | some m =>
        by_cases hm : isTableMissingError m = true
        · exact Or.inr (by simp [fetchTodos, hm])
        · exact Or.inl (by simp [fetchTodos, hm, fetchTodosCatch_todos])
      | none => exact Or.inl (by simp [fetchTodos, fetchTodosCatch_todos])
    | thrown isErrorInstance msg =>
      cases isErrorInstance <;>
        exact Or.inl (by simp [fetchTodos, fetchTodosCatch_todos])

/-- Witness for C8: a thrown network error resets the list to empty. -/
theorem fetchTodos_todos_list_w :
    (fetchTodos ⟨[⟨0, "a", none, false, 0, 0⟩], true, none, none, false⟩
      (.err (.thrown true "boom"))).todos = [] :=
  (fetchTodos_todos_list ⟨[⟨0, "a", none, false, 0, 0⟩], true, none, none, false⟩
    (.thrown true "boom") []).2.2.1 (by decide)

/-- Invariant of the Task Store under a clock bound: task ids are
pairwise distinct and below the next id to assign, and every record's
timestamps are ordered and bounded by the clock. -/
def StoreInv (s : Store) (clock : Nat) : Prop :=
  (s.todos.map (fun t => t.id)).Nodup ∧
  ∀ t ∈ s.todos, t.id < s.nextId ∧ t.created_at ≤ t.updated_at ∧ t.updated_at ≤ clock

theorem StoreInv.applyOp {s : Store} {clock : Nat} (h : StoreInv s clock)
    (op : StoreOp) : StoreInv (s.applyOp clock op) (clock + 1) := by
  obtain ⟨hnd, hall⟩ := h
  cases op with
  | create title descr =>
    by_cases ht : title = ""
    · simp only [Store.applyOp, if_pos ht]
      exact ⟨hnd, fun t htl =>
        ⟨(hall t htl).1, (hall t htl).2.1, Nat.le_succ_of_le (hall t htl).2.2⟩⟩
    · simp only [Store.applyOp, if_neg ht]
      constructor
      · simp only [List.map_cons, List.nodup_cons]
        refine ⟨fun hmem => ?_, hnd⟩
        obtain ⟨t, htl, hid⟩ := List.mem_map.mp hmem
        exact absurd hid (Nat.ne_of_lt (hall t htl).1)
      · intro t htl
        rcases List.mem_cons.mp htl with rfl | htl
        · exact ⟨Nat.lt_succ_self _, Nat.le_refl _, Nat.le_succ_of_le (Nat.le_refl _)⟩
        · exact ⟨Nat.lt_succ_of_lt (hall t htl).1, (hall t htl).2.1,
            Nat.le_succ_of_le (hall t htl).2.2⟩
  | update id p =>
    constructor
    · have hids : (s.todos.map (fun t => if t.id = id then applyPatch t p clock else t)).map
          (fun t => t.id) = s.todos.map (fun t => t.id) := by
        rw [List.map_map]
        refine List.map_congr_left fun t htl => ?_
        by_cases hid : t.id = id <;> simp [hid, applyPatch]
      simpa [Store.applyOp, hids] using hnd
    · intro t htl
      simp only [Store.applyOp, List.mem_map] at htl
      obtain ⟨t0, ht0, rfl⟩ := htl
      by_cases hid : t0.id = id
      · simp only [if_pos hid, applyPatch]
        exact ⟨(hall t0 ht0).1, Nat.le_trans (hall t0 ht0).2.1 (hall t0 ht0).2.2,
          Nat.le_succ _⟩
      · simp only [if_neg hid]
        exact ⟨(hall t0 ht0).1, (hall t0 ht0).2.1, Nat.le_succ_of_le (hall t0 ht0).2.2⟩
  | delete id =>
    constructor
    · exact List.Nodup.sublist (List.Sublist.map _ (List.filter_sublist _)) hnd
    · intro t htl
      have hmem := List.mem_of_mem_filter htl
      exact ⟨(hall t hmem).1, (hall t hmem).2.1, Nat.le_succ_of_le (hall t hmem).2.2⟩

theorem storeInv_run (ops : List StoreOp) :
    ∀ (s : Store) (clock : Nat), StoreInv s clock →
      StoreInv (s.run clock ops) (clock + ops.length) := by
  induction ops with
  | nil => intro s clock h; simpa [Store.run] using h
  | cons op ops ih =>
    intro s clock h
    have hstep := ih (s.applyOp clock op) (clock + 1) (h.applyOp op)
    have harith : clock + 1 + ops.length = clock + (op :: ops).length := by
      simp [Nat.add_comm, Nat.add_assoc, Nat.add_left_comm]
    rw [harith] at hstep
    simpa [Store.run] using hstep

theorem nextId_le_applyOp (s : Store) (now : Nat) (op : StoreOp) :
    s.nextId ≤ (s.applyOp now op).nextId := by
  cases op with
  | create title descr =>
    by_cases ht : title = "" <;> simp [Store.applyOp, ht, Nat.le_succ]
  | update id p => exact Nat.le_refl _
  | delete id => exact Nat.le_refl _

theorem assignedIds_lower (ops : List StoreOp) :
    ∀ (s : Store) (clock i : Nat), i ∈ s.assignedIds clock ops → s.nextId ≤ i := by
  induction ops with
  | nil => intro s clock i h; simp [Store.assignedIds] at h
  | cons op ops ih =>
    intro s clock i h
    simp only [Store.assignedIds, List.mem_append] at h
    rcases h with h | h
    · cases op with
      | create title descr =>
        by_cases ht : title = ""
        · simp [ht] at h
        · simp [ht] at h
          exact Nat.le_of_eq h.symm
      | update id p => simp at h
      | delete id => simp at h
    · exact Nat.le_trans (nextId_le_applyOp s clock op) (ih _ _ _ h)

theorem assignedIds_nodup (ops : List StoreOp) :
    ∀ (s : Store) (clock : Nat), (s.assignedIds clock ops).Nodup := by
  induction ops with
  | nil => intro s clock; simp [Store.assignedIds]
  | cons op ops ih =>
    intro s clock
    simp only [Store.assignedIds]
    cases op with
    | create title descr =>
      by_cases ht : title = ""
      · simpa [ht] using ih _ _
      · simp only [ht, if_neg ht, List.singleton_append]
        refine List.nodup_cons.mpr ⟨fun hmem => ?_, ih _ _⟩
        have hge := assignedIds_lower ops _ _ _ hmem
        simp [Store.applyOp, ht] at hge
    | update id p => simpa using ih _ _
    | delete id => simpa using ih _ _

/-- C7: along every sequence of create/update/delete operations from
the empty store (under a monotone clock), task ids in the store are
pairwise distinct, every id ever assigned by a create is assigned only
once (never reused), and every record satisfies
`created_at ≤ updated_at`. -/
theorem store_ids_unique_timestamps (ops : List StoreOp) :
    ((Store.run emptyStore 0 ops).todos.map (fun t => t.id)).Nodup ∧
    (∀ t ∈ (Store.run emptyStore 0 ops).todos, t.created_at ≤ t.updated_at) ∧
    (Store.assignedIds emptyStore 0 ops).Nodup := by
  have h0 : StoreInv emptyStore 0 := by
    refine ⟨List.nodup_nil, fun t h => ?_⟩
    simp [emptyStore] at h
  have h := storeInv_run ops emptyStore 0 h0
  exact ⟨h.1, fun t ht => (h.2 t ht).2.1, assignedIds_nodup ops emptyStore 0⟩

/-- Witness for C7 at a concrete operation sequence exercising create,
update and delete. -/
theorem store_ids_unique_timestamps_w :
    ((Store.run emptyStore 0 [.create "a" none, .create "b" none,
        .update 0 ⟨none, none, some true⟩, .delete 1, .create "c" none]).todos.map
      (fun t => t.id)).Nodup ∧
    (∀ t ∈ (Store.run emptyStore 0 [.create "a" none, .create "b" none,
        .update 0 ⟨none, none, some true⟩, .delete 1, .create "c" none]).todos,
      t.created_at ≤ t.updated_at) ∧
    (Store.assignedIds emptyStore 0 [.create "a" none, .create "b" none,
        .update 0 ⟨none, none, some true⟩, .delete 1, .create "c" none]).Nodup :=
  store_ids_unique_timestamps [.create "a" none, .create "b" none,
    .update 0 ⟨none, none, some true⟩, .delete 1, .create "c" none]

/-- C5: the orchestration pipeline has no partial success and
propagates the first error unchanged. A successful result means every
stage ran: the count is the number of incomplete tasks, exactly one LLM
call and one webhook call happened, the LLM produced usable text and
the dispatch succeeded. An error result is exactly the first failing
stage's error, and every later stage was skipped (its call count is
zero). -/
theorem orchestration_short_circuit (url : String) (tasks : List Todo)
    (llm : Except OrchError String) (dispatch : Except OrchError Unit) :
    (∀ n, (runOrchestration url tasks llm dispatch).result = .ok n →
        n = (tasks.filter (fun t => !t.completed)).length ∧
        (runOrchestration url tasks llm dispatch).llmCalls = 1 ∧
        (runOrchestration url tasks llm dispatch).webhookCalls = 1 ∧
        (∃ s, llm = .ok s ∧ s ≠ "") ∧ dispatch = .ok ()) ∧
    (∀ er, (runOrchestration url tasks llm dispatch).result = .error er →
        (isWellFormedUrl url = false ∧ er = .InvalidDestination ∧
          (runOrchestration url tasks llm dispatch).llmCalls = 0 ∧
          (runOrchestration url tasks llm dispatch).webhookCalls = 0) ∨
        (isWellFormedUrl url = true ∧ tasks.filter (fun t => !t.completed) = [] ∧
          er = .NoPendingItems ∧
          (runOrchestration url tasks llm dispatch).llmCalls = 0 ∧
          (runOrchestration url tasks llm dispatch).webhookCalls = 0) ∨
        (isWellFormedUrl url = true ∧ tasks.filter (fun t => !t.completed) ≠ [] ∧
          llm = .error er ∧
          (runOrchestration url tasks llm dispatch).llmCalls = 1 ∧
          (runOrchestration url tasks llm dispatch).webhookCalls = 0) ∨
        (isWellFormedUrl url = true ∧ tasks.filter (fun t => !t.completed) ≠ [] ∧
          llm = .ok "" ∧ er = .EmptyCompletion ∧
          (runOrchestration url tasks llm dispatch).llmCalls = 1 ∧
          (runOrchestration url tasks llm dispatch).webhookCalls = 0) ∨
        (isWellFormedUrl url = true ∧ tasks.filter (fun t => !t.completed) ≠ [] ∧
          (∃ s, llm = .ok s ∧ s ≠ "") ∧ dispatch = .error er ∧
          (runOrchestration url tasks llm dispatch).llmCalls = 1 ∧
          (runOrchestration url tasks llm dispatch).webhookCalls = 1)) := by
  by_cases hw : isWellFormedUrl url = true
  · by_cases hp : tasks.filter (fun t => !t.completed) = []
    · constructor
      · intro n hn
        simp [runOrchestration, hw, hp] at hn
      · intro er her
        simp [runOrchestration, hw, hp] at her
        exact Or.inr (Or.inl ⟨hw, hp, her.symm,
          by simp [runOrchestration, hw, hp], by simp [runOrchestration, hw, hp]⟩)
    · cases llm with
      | error e0 =>
        constructor
        · intro n hn
          simp [runOrchestration, hw, hp] at hn
        · intro er her
          simp [runOrchestration, hw, hp] at her
          exact Or.inr (Or.inr (Or.inl ⟨hw, hp, by rw [her],
            by simp [runOrchestration, hw, hp],
            by simp [runOrchestration, hw, hp]⟩))
      | ok s =>
        by_cases hs : s = ""
        · subst hs
          constructor
          · intro n hn
            simp [runOrchestration, hw, hp] at hn
          · intro er her
            simp [runOrchestration, hw, hp] at her
            exact Or.inr (Or.inr (Or.inr (Or.inl ⟨hw, hp, rfl, her.symm,
              by simp [runOrchestration, hw, hp],
              by simp [runOrchestration, hw, hp]⟩)))
        · cases dispatch with
          | error e1 =>
            constructor
            · intro n hn
              simp [runOrchestration, hw, hp, hs] at hn
            · intro er her
              simp [runOrchestration, hw, hp, hs] at her
              exact Or.inr (Or.inr (Or.inr (Or.inr ⟨hw, hp, ⟨s, rfl, hs⟩,
                by rw [her], by simp [runOrchestration, hw, hp, hs],
                by simp [runOrchestration, hw, hp, hs]⟩)))
          | ok u =>
            cases u
            constructor
            · intro n hn
              simp [runOrchestration, hw, hp, hs] at hn
              exact ⟨hn.symm, by simp [runOrchestration, hw, hp, hs],
                by simp [runOrchestration, hw, hp, hs], ⟨s, rfl, hs⟩, rfl⟩
            · intro er her
              simp [runOrchestration, hw, hp, hs] at her
  · rw [Bool.not_eq_true] at hw
    constructor
    · intro n hn
      simp [runOrchestration, hw] at hn
    · intro er her
      simp [runOrchestration, hw] at her
      exact Or.inl ⟨hw, her.symm, by simp [runOrchestration, hw],
        by simp [runOrchestration, hw]⟩

/-- Witness for C5: with one pending task, a well-formed URL, a usable
completion and a successful dispatch, the pipeline succeeds having made
exactly one LLM call and one webhook call. -/
theorem orchestration_short_circuit_w :
    1 = ([(⟨0, "a", none, false, 0, 0⟩ : Todo)].filter (fun t => !t.completed)).length ∧
    (runOrchestration "https://hooks.example.com/x" [⟨0, "a", none, false, 0, 0⟩]
      (.ok "s") (.ok ())).llmCalls = 1 ∧
    (runOrchestration "https://hooks.example.com/x" [⟨0, "a", none, false, 0, 0⟩]
      (.ok "s") (.ok ())).webhookCalls = 1 ∧
    (∃ s, (Except.ok s : Except OrchError String) = .ok "s" ∧ s ≠ "") ∧
    (Except.ok () : Except OrchError Unit) = .ok () := by
  have h := (orchestration_short_circuit "https://hooks.example.com/x"
    [⟨0, "a", none, false, 0, 0⟩] (.ok "s") (.ok ())).1 1 rfl
  exact ⟨h.1, h.2.1, h.2.2.1, ⟨"s", rfl, by decide⟩, rfl⟩

end FullStack
